import Mathlib

/-!
Shallow embedding of the Zambabet signal engine (src/signal_engine.py,
src/config.py, ingestion glue in src/log_monitor.py and the daily-opener
job of src/scheduler.py).

Modelling conventions:
* MongoDB collections become Lean lists held in a `World` record.  The
  `rounds` and `signals` lists are kept newest-first; the ingestion layer
  (`save_round_to_db`) assigns strictly increasing integer ids, so the
  source's `sort("_id", -1)` queries coincide with reading the list front.
* Python floats become `ℚ`; a `dict.get` that may miss becomes `Option`
  with the source's literal defaults reproduced via `Option.getD`.
* Wall-clock readings (`datetime.now`) and other per-invocation external
  inputs (the random volatility duration, the Telegram message id a send
  returns, the BRT hour bucket label) are passed in an `Env` record.
* Telegram sends are modelled as an event trace returned next to the new
  state; the engine never reads a message body back.
-/

namespace Zambabet

/-!
Decimal constants are written as rationals in normalized constructor
form (num/den pairs) rather than with `/`, so that the kernel can
evaluate the engine on concrete inputs (`Rat` division normalizes
through `Nat.gcd`, which does not reduce definitionally).
-/

/-- 1.5 (TARGET_CASHOUT). -/
def q3_2 : ℚ := ⟨3, 2, by norm_num, by norm_num⟩

/-- 0.30 (MAX_INTERRUPT_RATE). -/
def q3_10 : ℚ := ⟨3, 10, by norm_num, by norm_num⟩

/-- 1.20 (VOLATILITY_THRESHOLD). -/
def q6_5 : ℚ := ⟨6, 5, by norm_num, by norm_num⟩

/-- 1.1 -/
def q11_10 : ℚ := ⟨11, 10, by norm_num, by norm_num⟩

/-- 1.3 -/
def q13_10 : ℚ := ⟨13, 10, by norm_num, by norm_num⟩

/-- 1.4 -/
def q7_5 : ℚ := ⟨7, 5, by norm_num, by norm_num⟩

/-- 2.5 -/
def q5_2 : ℚ := ⟨5, 2, by norm_num, by norm_num⟩

/-- Configuration constants of src/config.py (signal-engine section).
Default field values are the literal values in the source. -/
structure Config where
  sequenceLength : Nat := 3
  threshold : ℚ := 2
  targetCashout : ℚ := q3_2
  maxGale : Nat := 2
  cooldownRounds : Int := 3
  interruptedCooldownMinutes : Int := 2
  preSignalMinIntervalSec : Int := 90
  maxInterruptsPerHour : Nat := 5
  maxInterruptRate : ℚ := q3_10
  operatingHoursOnly : Bool := false
  volatilityThreshold : ℚ := q6_5
deriving Repr, DecidableEq

/-- The config.py defaults. -/
def defaultConfig : Config := {}

/-- Signal status strings (STATUS_ACTIVE .. STATUS_LOST). -/
inductive Status where
  | active
  | won
  | gale1
  | gale2
  | lost
deriving Repr, DecidableEq

/-- `status in (active, gale1, gale2)`: the signal is still in progress
(the query used by `get_active_signal`). -/
def Status.nonTerminal : Status → Bool
  | .active => true
  | .gale1 => true
  | .gale2 => true
  | _ => false

/-- A stored round document `{_id, multiplier}` (the engine reads only
these fields).  `multiplier` is an `Option` because the engine reads it
with `dict.get` defaults. -/
structure Round where
  id : Int
  multiplier : Option ℚ
deriving Repr, DecidableEq

/-- A signal document as written by `create_signal` and mutated by
`mark_won` / `mark_lost` / `update_signal_gale`. -/
structure Signal where
  id : Int
  triggerRoundId : Int
  target : Option ℚ
  status : Status
  resultRoundId : Option Int
  resultMultiplier : Option ℚ
  galeDepth : Nat
  createdAt : Int
  resolvedAt : Option Int
  telegramMessageId : Option Nat
deriving Repr, DecidableEq

/-- Today's `daily_stats` row (the claims under study never cross a date
boundary, so the single current row is modelled; `_ensure_daily_stats`
creates it with zeroes, which are the defaults here). -/
structure DailyStats where
  wins : Nat := 0
  losses : Nat := 0
  signalsSent : Nat := 0
  todayWins : Nat := 0
  todayLosses : Nat := 0
deriving Repr, DecidableEq

/-- The hourly interrupt-governance counters kept under
`engine_state.interrupt_stats`.  The BRT hour label `"%Y-%m-%d-%H"` is
modelled as a `Nat` bucket key. -/
structure InterruptStats where
  hourKey : Nat
  interrupts : Nat
  confirmed : Nat
deriving Repr, DecidableEq

/-- The single `engine_state` document (`_id: "state"`).  Fields absent
from the document are `none` / the `dict.get` default. -/
structure EngineState where
  sessionClosed : Option Bool := none
  cooldownUntilRoundId : Option Int := none
  preSignalSent : Bool := false
  lastPreSignalMessageId : Option Nat := none
  lastPreSignalAt : Option Int := none
  lastSignalInterruptedAt : Option Int := none
  interruptStats : Option InterruptStats := none
  consecutiveWins : Nat := 0
  volatilityCooldownUntil : Option Int := none
  volatilityCooldownStartedAt : Option Int := none
  volatilityCooldownDurationMin : Int := 5
  volatilityCooldownMidpointSent : Bool := false
deriving Repr, DecidableEq

/-- The whole persisted world plus the module-level Python globals
`_current_streak` and `_last_streak_celebration`. -/
structure World where
  rounds : List Round := []
  signals : List Signal := []
  daily : DailyStats := {}
  state : EngineState := {}
  currentStreak : Nat := 0
  lastStreakCelebration : Nat := 0
deriving Repr, DecidableEq

/-- The empty deployment: no rounds, no signals, fresh state. -/
def initialWorld : World := {}

/-- Per-invocation external inputs: the UTC clock in seconds, the BRT
wall clock as minutes of day, the BRT hour bucket label, the random
volatility-cooldown duration `randint` would pick, and the message id
Telegram returns for a send (None when sending failed). -/
structure Env where
  nowUtcSec : Int
  minutesBRT : Nat
  hourKey : Nat
  volDurationMin : Int
  sendMsgId : Option Nat
deriving Repr, DecidableEq

/-- The notifications the engine emits (telegram_service calls), with the
payload fields the claims reason about. -/
inductive Event where
  | preSignalAnalyzing
  | signalConfirmed (sigId : Int) (target : ℚ)
  | signalCancelled
  | deletedMessage (msgId : Nat)
  | galeEscalation (sigId : Int) (depth : Nat)
  | winMsg (sigId : Int) (todayWins todayLosses : Nat)
  | recoveryMsg (sigId : Int) (todayWins todayLosses : Nat)
  | lossMsg (sigId : Int) (todayWins todayLosses : Nat)
  | streakCelebration (count : Nat)
  | cooldownModeEntered
deriving Repr, DecidableEq

/-- `get_recent_rounds(n)`: last n rounds newest first (the list is kept
newest-first, see the header comment). -/
def getRecentRounds (w : World) (n : Nat) : List Round :=
  w.rounds.take n

/-- `get_active_signal`: the signal whose status is in
(active, gale1, gale2), or none. -/
def getActiveSignal (w : World) : Option Signal :=
  w.signals.find? (fun s => s.status.nonTerminal)

/-- `active_signal_exists`. -/
def activeSignalExists (w : World) : Bool :=
  (getActiveSignal w).isSome

/-- `is_session_closed`: between 23:00 and 08:00 BRT with
OPERATING_HOURS_ONLY enabled, unless the state holds an explicit
`session_closed: False`. -/
def isSessionClosed (cfg : Config) (w : World) (env : Env) : Bool :=
  if !cfg.operatingHoursOnly then false
  else if w.state.sessionClosed = some false then false
  else decide (23 * 60 ≤ env.minutesBRT) || decide (env.minutesBRT < 8 * 60)

/-- `clear_session_closed`: the daily opener writes
`session_closed: False` unconditionally. -/
def clearSessionClosed (w : World) : World :=
  { w with state := { w.state with sessionClosed := some false } }

/-- `in_cooldown`: a recorded `cooldown_until_round_id` is still ahead of
the newest stored integer-id round. -/
def inCooldown (w : World) : Bool :=
  match w.state.cooldownUntilRoundId with
  | none => false
  | some until_ =>
    match w.rounds.head? with
    | none => true
    | some latest => decide (latest.id < until_)

/-- `is_in_volatility_cooldown`: a recorded expiry lies in the future. -/
def isInVolatilityCooldown (w : World) (env : Env) : Bool :=
  match w.state.volatilityCooldownUntil with
  | none => false
  | some until_ => decide (env.nowUtcSec < until_)

/-- `_check_volatility_trigger`: last 3 rounds all under
VOLATILITY_THRESHOLD (missing multiplier reads as 999). -/
def checkVolatilityTrigger (cfg : Config) (recent : List Round) : Bool :=
  if recent.length < 3 then false
  else (recent.take 3).all (fun r => decide (r.multiplier.getD 999 < cfg.volatilityThreshold))

/-- `_enter_volatility_cooldown`: persist the randomly chosen window and
post the cooldown-mode message. -/
def enterVolatilityCooldown (w : World) (env : Env) : World × List Event :=
  ({ w with state := { w.state with
      volatilityCooldownUntil := some (env.nowUtcSec + env.volDurationMin * 60),
      volatilityCooldownStartedAt := some env.nowUtcSec,
      volatilityCooldownDurationMin := env.volDurationMin,
      volatilityCooldownMidpointSent := false } },
   [Event.cooldownModeEntered])

/-- `_consecutive_under_threshold`: length of the streak of rounds from
the newest that are all `< THRESHOLD` (missing multiplier reads as 999). -/
def consecutiveUnderThreshold (cfg : Config) : List Round → Nat
  | [] => 0
  | r :: rs =>
    if r.multiplier.getD 999 < cfg.threshold
    then consecutiveUnderThreshold cfg rs + 1
    else 0

/-- `_pre_signal_sent_for_run`. -/
def preSignalSentForRun (w : World) : Bool :=
  w.state.preSignalSent

/-- `_set_pre_signal_sent`. -/
def setPreSignalSent (w : World) (v : Bool) : World :=
  { w with state := { w.state with preSignalSent := v } }

/-- `_clear_pre_signal_state`: reset the flag and drop the stored
pre-signal message id. -/
def clearPreSignalState (w : World) : World :=
  { w with state := { w.state with
      preSignalSent := false, lastPreSignalMessageId := none } }

/-- `_get_interrupt_stats`: the hourly counters, reset to zero when the
stored hour label differs from the current one. -/
def getInterruptStats (w : World) (env : Env) : InterruptStats :=
  match w.state.interruptStats with
  | some st => if st.hourKey = env.hourKey then st else ⟨env.hourKey, 0, 0⟩
  | none => ⟨env.hourKey, 0, 0⟩

/-- `_should_post_interrupted_signal`: under the hourly cap and under the
interrupt-rate cap. -/
def shouldPostInterruptedSignal (cfg : Config) (w : World) (env : Env) : Bool :=
  let st := getInterruptStats w env
  if cfg.maxInterruptsPerHour ≤ st.interrupts then false
  else
    let total := st.interrupts + st.confirmed
    if total = 0 then true
    else if cfg.maxInterruptRate ≤ (st.interrupts : ℚ) / (total : ℚ) then false
    else true

/-- `_record_interrupt_event`: bump the hourly counter for an interrupted
(`true`) or confirmed (`false`) signal; an interrupt also records
`last_signal_interrupted_at`. -/
def recordInterruptEvent (w : World) (env : Env) (interrupted : Bool) : World :=
  let st := getInterruptStats w env
  let st' := if interrupted
    then { st with interrupts := st.interrupts + 1 }
    else { st with confirmed := st.confirmed + 1 }
  let es := { w.state with interruptStats := some st' }
  let es := if interrupted
    then { es with lastSignalInterruptedAt := some env.nowUtcSec }
    else es
  { w with state := es }

/-- `_is_in_interrupted_cooldown`: within INTERRUPTED_COOLDOWN_MINUTES of
the last posted cancellation. -/
def isInInterruptedCooldown (cfg : Config) (w : World) (env : Env) : Bool :=
  match w.state.lastSignalInterruptedAt with
  | none => false
  | some last => decide (env.nowUtcSec - last < cfg.interruptedCooldownMinutes * 60)

/-- `get_pattern_monitoring_data`: `(count, remaining)` when Template 2
conditions hold, else none.  Mirrors the source including its
`count < 3` early return and the `r.get("multiplier", 0)` default
(`remaining` is Python's `max(0, SEQUENCE_LENGTH - count)`, which is
`Nat` truncated subtraction here). -/
def getPatternMonitoringData (cfg : Config) (w : World) (env : Env) : Option (Nat × Nat) :=
  if activeSignalExists w then none
  else if inCooldown w then none
  else if isInVolatilityCooldown w env then none
  else
    let recent := getRecentRounds w 10
    if recent.length < 3 then none
    else
      let count := countUnderD0 cfg recent
      if count < 3 then none
      else some (count, cfg.sequenceLength - count)
where
  /-- The counting loop of `get_pattern_monitoring_data`, whose
  `dict.get` default is 0 (unlike `_consecutive_under_threshold`). -/
  countUnderD0 (cfg : Config) : List Round → Nat
    | [] => 0
    | r :: rs =>
      if r.multiplier.getD 0 < cfg.threshold
      then countUnderD0 cfg rs + 1
      else 0

/-- `check_trigger`: last SEQUENCE_LENGTH rounds all `< THRESHOLD`
(missing multiplier reads as 0), no active signal, no cooldown, no
volatility cooldown, session open. -/
def checkTrigger (cfg : Config) (w : World) (env : Env) (recent : List Round) : Bool :=
  if activeSignalExists w then false
  else if inCooldown w then false
  else if isInVolatilityCooldown w env then false
  else if isSessionClosed cfg w env then false
  else if recent.length < cfg.sequenceLength then false
  else (recent.take cfg.sequenceLength).all
    (fun r => decide (r.multiplier.getD 0 < cfg.threshold))

/-- `_next_signal_id`: max stored signal id plus one (the signals list is
kept newest-first), or 1 on an empty collection. -/
def nextSignalId (w : World) : Int :=
  match w.signals.head? with
  | some s => s.id + 1
  | none => 1

/-- `update_one` on the signals collection filtered by `_id`. -/
def updateSignalDoc (w : World) (sid : Int) (f : Signal → Signal) : World :=
  { w with signals := w.signals.map (fun s => if s.id = sid then f s else s) }

/-- `mark_won`: set status, result round, result multiplier and the
resolution timestamp. -/
def markWon (w : World) (env : Env) (sig : Signal) (rd : Round) : World :=
  updateSignalDoc w sig.id (fun s => { s with
    status := Status.won,
    resultRoundId := some rd.id,
    resultMultiplier := rd.multiplier,
    resolvedAt := some env.nowUtcSec })

/-- `mark_lost`: same fields as `mark_won` with status lost. -/
def markLost (w : World) (env : Env) (sig : Signal) (rd : Round) : World :=
  updateSignalDoc w sig.id (fun s => { s with
    status := Status.lost,
    resultRoundId := some rd.id,
    resultMultiplier := rd.multiplier,
    resolvedAt := some env.nowUtcSec })

/-- `update_signal_gale`: status gale1 for depth 1, gale2 otherwise. -/
def updateSignalGale (w : World) (sig : Signal) (newDepth : Nat) : World :=
  updateSignalDoc w sig.id (fun s => { s with
    status := if newDepth = 1 then Status.gale1 else Status.gale2,
    galeDepth := newDepth })

/-- `increment_daily_wins`. -/
def incrementDailyWins (d : DailyStats) : DailyStats :=
  { d with wins := d.wins + 1 }

/-- `increment_daily_losses`: bump both loss counters and re-derive the
display rollup `today_wins = max(0, signals_sent - today_losses)`. -/
def incrementDailyLosses (d : DailyStats) : DailyStats :=
  let newTodayLosses := d.todayLosses + 1
  { d with
    losses := d.losses + 1,
    todayLosses := newTodayLosses,
    todayWins := (max 0 ((d.signalsSent : Int) - (newTodayLosses : Int))).toNat }

/-- `reset_daily_stats_after_two_losses`: display-counter reset to
`wins=0, losses=1`. -/
def resetDailyStatsAfterTwoLosses (d : DailyStats) : DailyStats :=
  { d with wins := 0, losses := 1 }

/-- `start_cooldown`: no new signal until `result_round_id + rounds_count`
(a missing result round id leaves the state untouched). -/
def startCooldown (w : World) (roundsCount : Int) (resultRoundId : Option Int) : World :=
  match resultRoundId with
  | none => w
  | some rid =>
    { w with state := { w.state with cooldownUntilRoundId := some (rid + roundsCount) } }

/-- `_is_streak_milestone`: 3, 5, 7, 10, then every multiple of 5 from 15. -/
def isStreakMilestone (count : Nat) : Bool :=
  if count = 3 ∨ count = 5 ∨ count = 7 ∨ count = 10 then true
  else if 15 ≤ count ∧ count % 5 = 0 then true
  else false

/-- `_get_consecutive_wins_from_db`: resolved signals newest-first
(resolution order follows storage order here, see the header comment),
limited to 50, counting the leading wins. -/
def getConsecutiveWinsFromDb (w : World) : Nat :=
  let resolved := (w.signals.filter
    (fun s => s.status = Status.won || s.status = Status.lost)).take 50
  (resolved.takeWhile (fun s => s.status = Status.won)).length

/-- `_persist_consecutive_wins`. -/
def persistConsecutiveWins (w : World) (count : Nat) : World :=
  { w with state := { w.state with consecutiveWins := count } }

/-- `_check_streak_celebration`: celebrate when the streak is a milestone
strictly above the last celebrated value, then record it. -/
def checkStreakCelebration (w : World) : World × List Event :=
  if isStreakMilestone w.currentStreak ∧ w.lastStreakCelebration < w.currentStreak then
    ({ w with lastStreakCelebration := w.currentStreak },
     [Event.streakCelebration w.currentStreak])
  else (w, [])

/-- The shared streak bookkeeping of `send_win_message` and
`send_recovery_message`: restore from the resolved-signal history when
the in-memory counter is zero, else increment, then persist. -/
def bumpStreak (w : World) : World :=
  let streak := if w.currentStreak = 0
    then getConsecutiveWinsFromDb w
    else w.currentStreak + 1
  persistConsecutiveWins { w with currentStreak := streak } streak

/-- `send_win_message` (gale depth 0): streak bookkeeping, the win
notification with today's freshly read counters, then the milestone
check. -/
def sendWinMessage (w : World) (sig : Signal) : World × List Event :=
  let w := bumpStreak w
  let ev := Event.winMsg sig.id w.daily.wins w.daily.losses
  let (w, evs) := checkStreakCelebration w
  (w, ev :: evs)

/-- `send_recovery_message` (gale 1 or 2 hit the target). -/
def sendRecoveryMessage (w : World) (sig : Signal) : World × List Event :=
  let w := bumpStreak w
  let ev := Event.recoveryMsg sig.id w.daily.wins w.daily.losses
  let (w, evs) := checkStreakCelebration w
  (w, ev :: evs)

/-- `send_gale_message`: the escalation notification only. -/
def sendGaleMessage (w : World) (sig : Signal) (newDepth : Nat) : World × List Event :=
  (w, [Event.galeEscalation sig.id newDepth])

/-- `send_loss_message`: reset streak state, notify with today's
counters, and apply the two-losses display reset when the loss counter
just read 2. -/
def sendLossMessage (w : World) (sig : Signal) : World × List Event :=
  let w := persistConsecutiveWins
    { w with currentStreak := 0, lastStreakCelebration := 0 } 0
  let ev := Event.lossMsg sig.id w.daily.wins w.daily.losses
  let w := if w.daily.losses = 2
    then { w with daily := resetDailyStatsAfterTwoLosses w.daily }
    else w
  (w, [ev])

/-- `create_signal`: insert the fresh active signal, bump
`signals_sent` and re-derive `today_wins`, send Template 3, count a
confirmed signal for interrupt governance, and record the Telegram
message id when the send returned one. -/
def createSignal (cfg : Config) (w : World) (env : Env)
    (triggerRoundId : Int) (target : ℚ) : World × List Event :=
  let sigId := nextSignalId w
  let doc : Signal :=
    { id := sigId
      triggerRoundId := triggerRoundId
      target := some target
      status := Status.active
      resultRoundId := none
      resultMultiplier := none
      galeDepth := 0
      createdAt := env.nowUtcSec
      resolvedAt := none
      telegramMessageId := none }
  let newSignalsSent := w.daily.signalsSent + 1
  let d := { w.daily with
    signalsSent := newSignalsSent,
    todayWins := (max 0 ((newSignalsSent : Int) - (w.daily.todayLosses : Int))).toNat }
  let w := { w with signals := doc :: w.signals, daily := d }
  let w := recordInterruptEvent w env false
  let w := match env.sendMsgId with
    | some m => updateSignalDoc w sigId (fun s => { s with telegramMessageId := some m })
    | none => w
  (w, [Event.signalConfirmed sigId target])

/-- `resolve_signal`: win / gale escalation / loss with cooldown, guarded
against a missing multiplier or target. -/
def resolveSignal (cfg : Config) (w : World) (env : Env)
    (sig : Signal) (rd : Round) : World × List Event :=
  match rd.multiplier, sig.target with
  | none, _ => (w, [])
  | some _, none => (w, [])
  | some mult, some target =>
    if target ≤ mult then
      let w := markWon w env sig rd
      let w := { w with daily := incrementDailyWins w.daily }
      if sig.galeDepth = 0 then sendWinMessage w sig
      else sendRecoveryMessage w sig
    else
      if sig.galeDepth < cfg.maxGale then
        let newDepth := sig.galeDepth + 1
        let w := updateSignalGale w sig newDepth
        sendGaleMessage w sig newDepth
      else
        let w := markLost w env sig rd
        let w := { w with daily := incrementDailyLosses w.daily }
        (startCooldown (sendLossMessage w sig).1 cfg.cooldownRounds (some rd.id),
         (sendLossMessage w sig).2)

/-- `on_new_round`: resolve an active signal, else walk the governance
ladder (volatility, cooldown, session), the pre-signal cancel branch, the
trigger branch, the pre-signal branch and the pattern-reset branch, in
source order. -/
def onNewRound (cfg : Config) (w : World) (env : Env) (rd : Round) : World × List Event :=
  let recent := getRecentRounds w 8
  match getActiveSignal w with
  | some active => resolveSignal cfg w env active rd
  | none =>
    if checkVolatilityTrigger cfg recent ∧ ¬isInVolatilityCooldown w env then
      enterVolatilityCooldown w env
    else if isInVolatilityCooldown w env then (w, [])
    else if inCooldown w ∨ isSessionClosed cfg w env then (w, [])
    else
      let consecutive := consecutiveUnderThreshold cfg recent
      let currentMultVal := rd.multiplier.getD 0
      if preSignalSentForRun w ∧ cfg.threshold < currentMultVal
          ∧ consecutive < cfg.sequenceLength then
        let preMsgId := w.state.lastPreSignalMessageId
        if shouldPostInterruptedSignal cfg w env then
          (clearPreSignalState (recordInterruptEvent w env true),
           [Event.signalCancelled])
        else
          (clearPreSignalState w,
           match preMsgId with
           | some m => [Event.deletedMessage m]
           | none => [])
      else if checkTrigger cfg w env recent then
        if ¬preSignalSentForRun w then (w, [])
        else
          let w := clearPreSignalState w
          let triggerRoundId := match recent.head? with
            | some r => r.id
            | none => rd.id
          createSignal cfg w env triggerRoundId cfg.targetCashout
      else if consecutive = 2 ∧ ¬preSignalSentForRun w then
        if isInInterruptedCooldown cfg w env then (w, [])
        else if preSignalThrottled cfg w env then (w, [])
        else
          let w := setPreSignalSent w true
          let w := { w with state := { w.state with
            lastPreSignalAt := some env.nowUtcSec,
            lastPreSignalMessageId := match env.sendMsgId with
              | some m => some m
              | none => w.state.lastPreSignalMessageId } }
          (w, [Event.preSignalAnalyzing])
      else if consecutive < 2 then
        let w := setPreSignalSent w false
        ({ w with state := { w.state with lastPreSignalMessageId := none } }, [])
      else (w, [])
where
  /-- The `last_pre_signal_at` throttle inside the `consecutive == 2`
  branch of `on_new_round`. -/
  preSignalThrottled (cfg : Config) (w : World) (env : Env) : Bool :=
    match w.state.lastPreSignalAt with
    | none => false
    | some last => decide (env.nowUtcSec - last < cfg.preSignalMinIntervalSec)

/-- `save_round_to_db`'s id assignment: max stored integer id plus one,
or 1 on an empty store. -/
def nextRoundId (w : World) : Int :=
  match w.rounds.head? with
  | some r => r.id + 1
  | none => 1

/-- The ingestion path of src/log_monitor.py: an unparseable multiplier
(`convert_multiplier_to_decimal` returning None) drops the event before
anything is stored; otherwise the round is stored with the next integer
id and `on_new_round` runs on it. -/
def ingestPayout (cfg : Config) (w : World) (env : Env)
    (parsedMultiplier : Option ℚ) : World × List Event :=
  match parsedMultiplier with
  | none => (w, [])
  | some m =>
    let rd : Round := { id := nextRoundId w, multiplier := some m }
    onNewRound cfg { w with rounds := rd :: w.rounds } env rd

/-- A deterministic environment for concrete executions: the clock
advances 1000 seconds per event (far beyond every throttle window), the
BRT wall clock reads 10:00, the hour bucket is constant, and every
Telegram send succeeds with a fresh message id. -/
def scenarioEnv (k : Nat) : Env :=
  { nowUtcSec := 1000 * ((k : Int) + 1)
    minutesBRT := 600
    hourKey := 0
    volDurationMin := 5
    sendMsgId := some (100 + k) }

/-- Ingest a list of parsed payouts (oldest first) from the empty world
under `scenarioEnv`, collecting the full notification trace. -/
def runScenario (ms : List ℚ) : World × List Event :=
  ms.enum.foldl
    (fun acc p =>
      let r := ingestPayout defaultConfig acc.1 (scenarioEnv p.1) (some p.2)
      (r.1, acc.2 ++ r.2))
    (initialWorld, [])

/-- Five win cycles: each cycle builds a three-round sub-threshold
pattern (pre-signal at two, confirmed signal at three) and resolves the
signal with a winning round. -/
def fiveWinPayouts : List ℚ :=
  [q3_2, q3_2, q3_2, q5_2,
   q3_2, q3_2, q3_2, q5_2,
   q3_2, q3_2, q3_2, q5_2,
   q3_2, q3_2, q3_2, q5_2,
   q3_2, q3_2, q3_2, q5_2]

/-- The states a serial deployment can be in: the empty world followed by
any sequence of ingested payout events. -/
inductive Reachable (cfg : Config) : World → Prop where
  | init : Reachable cfg initialWorld
  | step {w : World} (env : Env) (m : Option ℚ) :
      Reachable cfg w → Reachable cfg (ingestPayout cfg w env m).1

/-! ## Concrete fixtures for witnesses and counterexamples -/

/-- A gale-2 signal awaiting its third resolution round. -/
def gale2Signal : Signal :=
  { id := 1, triggerRoundId := 1, target := some q3_2,
    status := Status.gale2, resultRoundId := none, resultMultiplier := none,
    galeDepth := 2, createdAt := 0, resolvedAt := none,
    telegramMessageId := none }

/-- A world just after a loss on round 5 started the 3-round cooldown:
the latest stored round is 6 and the recorded bound is `5 + 3 = 8`. -/
def cooldownWorld : World :=
  { initialWorld with
    rounds := [⟨6, some 1⟩],
    state := { initialWorld.state with cooldownUntilRoundId := some 8 } }

/-- Multipliers 2.5, 1.1, 1.3 arrived in that order (newest first in the
store): two consecutive sub-threshold rounds. -/
def twoUnderWorld : World :=
  { initialWorld with
    rounds := [⟨3, some q13_10⟩, ⟨2, some q11_10⟩, ⟨1, some q5_2⟩] }

/-- Multipliers 2.5, 1.1, 1.3, 1.4 arrived in that order: three
consecutive sub-threshold rounds. -/
def threeUnderWorld : World :=
  { initialWorld with
    rounds := [⟨4, some q7_5⟩, ⟨3, some q13_10⟩, ⟨2, some q11_10⟩,
               ⟨1, some q5_2⟩] }

/-- Three stored sub-threshold rounds with the pre-signal already sent
for the current run: the next sub-threshold round fires the trigger. -/
def pendingTriggerWorld : World :=
  { initialWorld with
    rounds := [⟨3, some q3_2⟩, ⟨2, some q3_2⟩, ⟨1, some q3_2⟩],
    state := { initialWorld.state with preSignalSent := true } }

/-- The round `ingestPayout` appends to `pendingTriggerWorld`. -/
def triggerRound : Round := ⟨4, some q3_2⟩

/-- `pendingTriggerWorld` right after the trigger round is stored,
exactly as `on_new_round` sees it. -/
def pendingTriggerIngested : World :=
  { pendingTriggerWorld with
    rounds := triggerRound :: pendingTriggerWorld.rounds }

/-- A pre-signal was sent (message id 7) and the hourly cancellation cap
is exhausted (5 interrupts this hour); the newest round 2.5 breaks the
pattern. -/
def cappedHourWorld : World :=
  { initialWorld with
    rounds := [⟨2, some q5_2⟩, ⟨1, some q5_2⟩],
    state := { initialWorld.state with
      preSignalSent := true,
      lastPreSignalMessageId := some 7,
      interruptStats := some ⟨0, 5, 0⟩ } }

/-- The pattern-breaking round of `cappedHourWorld`. -/
def breakingRound : Round := ⟨2, some q5_2⟩

/-- The config with the operating-hours restriction switched on. -/
def operatingHoursConfig : Config := { operatingHoursOnly := true }

/-- A clock reading 23:20 BRT. -/
def nightEnv : Env :=
  { nowUtcSec := 1000, minutesBRT := 23 * 60 + 20, hourKey := 0,
    volDurationMin := 5, sendMsgId := some 1 }

/-! ## Invariant machinery -/

/-- Number of stored signals in a non-terminal status. -/
def activeCount (l : List Signal) : Nat :=
  (l.filter (fun s => s.status.nonTerminal)).length

/-- The per-document shape the engine maintains: status and gale depth
agree, terminal signals carry their result fields, and every signal has
a target. -/
def SignalOk (s : Signal) : Prop :=
  (s.status = Status.active → s.galeDepth = 0)
  ∧ (s.status = Status.gale1 → s.galeDepth = 1)
  ∧ (s.status = Status.gale2 → s.galeDepth = 2)
  ∧ ((s.status = Status.won ∨ s.status = Status.lost) →
      s.resultRoundId.isSome ∧ s.resultMultiplier.isSome ∧ s.resolvedAt.isSome)
  ∧ s.target.isSome

/-- The signals-collection invariant: distinct ids, the stored head
carries the maximal id, at most one non-terminal signal, and every
document is well-shaped. -/
structure WF (w : World) : Prop where
  pairwiseIds : w.signals.Pairwise (fun a b => a.id ≠ b.id)
  headMax : ∀ h ∈ w.signals.head?, ∀ s ∈ w.signals, s.id ≤ h.id
  atMostOne : activeCount w.signals ≤ 1
  allOk : ∀ s ∈ w.signals, SignalOk s

section InvariantLemmas

variable {l : List Signal} {g : Signal → Signal}

lemma activeCount_cons (s : Signal) (l : List Signal) :
    activeCount (s :: l) =
      (if s.status.nonTerminal then 1 else 0) + activeCount l := by
  by_cases h : s.status.nonTerminal <;> simp [activeCount, h, Nat.add_comm]

lemma activeCount_map_le
    (h : ∀ s ∈ l, (g s).status.nonTerminal = true → s.status.nonTerminal = true) :
    activeCount (l.map g) ≤ activeCount l := by
  induction l with
  | nil => simp [activeCount]
  | cons s t ih =>
    have iht := ih fun x hx => h x (by simp [hx])
    rw [List.map_cons, activeCount_cons, activeCount_cons]
    by_cases hgs : (g s).status.nonTerminal = true
    · rw [if_pos hgs, if_pos (h s (by simp) hgs)]
      omega
    · rw [if_neg hgs]
      have hz : (0 : Nat) ≤ if s.status.nonTerminal = true then 1 else 0 :=
        Nat.zero_le _
      omega

lemma activeCount_map_eq
    (h : ∀ s ∈ l, (g s).status.nonTerminal = s.status.nonTerminal) :
    activeCount (l.map g) = activeCount l := by
  induction l with
  | nil => simp [activeCount]
  | cons s t ih =>
    have iht := ih fun x hx => h x (by simp [hx])
    rw [List.map_cons, activeCount_cons, activeCount_cons, h s (by simp)]
    omega

lemma activeCount_eq_zero_of_none
    (h : ∀ s ∈ l, s.status.nonTerminal = false) :
    activeCount l = 0 := by
  induction l with
  | nil => simp [activeCount]
  | cons s t ih =>
    have iht := ih fun x hx => h x (by simp [hx])
    rw [activeCount_cons, if_neg (by simp [h s (by simp)])]
    omega

/-- Two stored signals with the same id coincide when ids are pairwise
distinct. -/
lemma eq_of_mem_of_id_eq {a b : Signal}
    (hp : l.Pairwise (fun x y => x.id ≠ y.id))
    (ha : a ∈ l) (hb : b ∈ l) (hid : a.id = b.id) : a = b := by
  induction l with
  | nil => cases ha
  | cons x t ih =>
    rw [List.pairwise_cons] at hp
    rcases List.mem_cons.mp ha with rfl | ha' <;>
      rcases List.mem_cons.mp hb with rfl | hb'
    · rfl
    · exact absurd hid (hp.1 b hb')
    · exact absurd hid.symm (hp.1 a ha')
    · exact ih hp.2 ha' hb'

lemma getActiveSignal_mem {w : World} {a : Signal}
    (h : getActiveSignal w = some a) :
    a ∈ w.signals ∧ a.status.nonTerminal = true := by
  unfold getActiveSignal at h
  have h1 := List.mem_of_find?_eq_some h
  have h2 := List.find?_some h
  exact ⟨h1, by simpa using h2⟩

lemma getActiveSignal_none {w : World}
    (h : getActiveSignal w = none) :
    ∀ s ∈ w.signals, s.status.nonTerminal = false := by
  unfold getActiveSignal at h
  intro s hs
  have := List.find?_eq_none.mp h s hs
  simpa using this

end InvariantLemmas

/-! Simp facts: the message helpers never touch the signals store. -/

@[simp] lemma bumpStreak_signals (w : World) :
    (bumpStreak w).signals = w.signals := rfl

@[simp] lemma checkStreakCelebration_signals (w : World) :
    (checkStreakCelebration w).1.signals = w.signals := by
  unfold checkStreakCelebration
  split <;> rfl

@[simp] lemma sendWinMessage_signals (w : World) (sig : Signal) :
    (sendWinMessage w sig).1.signals = w.signals := by
  unfold sendWinMessage
  simp

@[simp] lemma sendRecoveryMessage_signals (w : World) (sig : Signal) :
    (sendRecoveryMessage w sig).1.signals = w.signals := by
  unfold sendRecoveryMessage
  simp

@[simp] lemma sendLossMessage_signals (w : World) (sig : Signal) :
    (sendLossMessage w sig).1.signals = w.signals := by
  unfold sendLossMessage
  dsimp only
  split <;> rfl

@[simp] lemma sendGaleMessage_signals (w : World) (sig : Signal) (d : Nat) :
    (sendGaleMessage w sig d).1.signals = w.signals := rfl

@[simp] lemma startCooldown_signals (w : World) (n : Int) (r : Option Int) :
    (startCooldown w n r).signals = w.signals := by
  unfold startCooldown
  cases r <;> rfl

@[simp] lemma recordInterruptEvent_signals (w : World) (env : Env) (b : Bool) :
    (recordInterruptEvent w env b).signals = w.signals := by
  unfold recordInterruptEvent
  cases b <;> rfl

@[simp] lemma enterVolatilityCooldown_signals (w : World) (env : Env) :
    (enterVolatilityCooldown w env).1.signals = w.signals := rfl

@[simp] lemma clearPreSignalState_signals (w : World) :
    (clearPreSignalState w).signals = w.signals := rfl

@[simp] lemma setPreSignalSent_signals (w : World) (v : Bool) :
    (setPreSignalSent w v).signals = w.signals := rfl

@[simp] lemma clearPreSignalState_getActiveSignal (w : World) :
    getActiveSignal (clearPreSignalState w) = getActiveSignal w := rfl

/-! ## Preservation of the invariant by the signal mutations -/

lemma updateSignalDoc_map_id {f : Signal → Signal} (w : World) (sid : Int)
    (hid : ∀ s, (f s).id = s.id) :
    (updateSignalDoc w sid f).signals.map Signal.id = w.signals.map Signal.id := by
  unfold updateSignalDoc
  simp only [List.map_map]
  apply List.map_congr_left
  intro s _
  by_cases h : s.id = sid <;> simp [h, hid]

lemma wf_updateSignalDoc {f : Signal → Signal} (w : World) (sid : Int)
    (hw : WF w)
    (hid : ∀ s, (f s).id = s.id)
    (hcount : activeCount
      (w.signals.map (fun s => if s.id = sid then f s else s)) ≤ 1)
    (hok : ∀ s ∈ w.signals, s.id = sid → SignalOk (f s)) :
    WF (updateSignalDoc w sid f) := by
  set g : Signal → Signal := fun s => if s.id = sid then f s else s with hg
  have hgid : ∀ s, (g s).id = s.id := by
    intro s
    by_cases h : s.id = sid <;> simp [hg, h, hid]
  constructor
  · show (w.signals.map g).Pairwise _
    rw [List.pairwise_map]
    exact hw.pairwiseIds.imp (by intro a b hab; simpa [hgid] using hab)
  · show ∀ hd ∈ (w.signals.map g).head?, ∀ s ∈ w.signals.map g, s.id ≤ hd.id
    rcases hl : w.signals with _ | ⟨x, t⟩
    · simp
    · intro hd hhd s hs
      simp only [List.map_cons, List.head?_cons, Option.mem_def,
        Option.some.injEq] at hhd
      rcases List.mem_map.mp hs with ⟨s0, hs0, rfl⟩
      rw [hgid, ← hhd, hgid]
      exact hw.headMax x (by simp [hl]) s0 (by simp [hl]; simpa [hl] using hs0)
  · exact hcount
  · intro s' hs'
    rcases List.mem_map.mp hs' with ⟨s, hs, rfl⟩
    by_cases h : s.id = sid
    · simpa [hg, h] using hok s hs h
    · simpa [hg, h] using hw.allOk s hs

lemma wf_markWon (w : World) (env : Env) (sig : Signal) (rd : Round)
    (hw : WF w) (hmult : rd.multiplier.isSome) :
    WF (markWon w env sig rd) := by
  apply wf_updateSignalDoc w sig.id hw
  · intro s; rfl
  · refine le_trans (activeCount_map_le ?_) hw.atMostOne
    intro s _ hgs
    by_cases h : s.id = sig.id
    · simp [h, Status.nonTerminal] at hgs
    · simpa [h] using hgs
  · intro s hs _
    refine ⟨by simp, by simp, by simp, ?_, ?_⟩
    · intro _
      exact ⟨by simp, by simpa using hmult, by simp⟩
    · simpa using (hw.allOk s hs).2.2.2.2

lemma wf_markLost (w : World) (env : Env) (sig : Signal) (rd : Round)
    (hw : WF w) (hmult : rd.multiplier.isSome) :
    WF (markLost w env sig rd) := by
  apply wf_updateSignalDoc w sig.id hw
  · intro s; rfl
  · refine le_trans (activeCount_map_le ?_) hw.atMostOne
    intro s _ hgs
    by_cases h : s.id = sig.id
    · simp [h, Status.nonTerminal] at hgs
    · simpa [h] using hgs
  · intro s hs _
    refine ⟨by simp, by simp, by simp, ?_, ?_⟩
    · intro _
      exact ⟨by simp, by simpa using hmult, by simp⟩
    · simpa using (hw.allOk s hs).2.2.2.2

lemma wf_updateSignalGale (w : World) (sig : Signal) (newDepth : Nat)
    (hw : WF w) (hmem : sig ∈ w.signals)
    (hact : sig.status.nonTerminal = true)
    (hnd : newDepth = 1 ∨ newDepth = 2) :
    WF (updateSignalGale w sig newDepth) := by
  apply wf_updateSignalDoc w sig.id hw
  · intro s; rfl
  · rw [activeCount_map_eq ?_]
    · exact hw.atMostOne
    · intro s hs
      by_cases h : s.id = sig.id
      · have hseq : s = sig := eq_of_mem_of_id_eq hw.pairwiseIds hs hmem h
        subst hseq
        rcases hnd with rfl | rfl <;>
          simpa [Status.nonTerminal] using hact.symm
      · simp [h]
  · intro s hs _
    rcases hnd with rfl | rfl
    · exact ⟨by simp, by simp, by simp [Status.gale1, Status.gale2], by simp,
        by simpa using (hw.allOk s hs).2.2.2.2⟩
    · exact ⟨by simp, by simp, by simp, by simp,
        by simpa using (hw.allOk s hs).2.2.2.2⟩

/-- The invariant only inspects the signals store, so it transfers along
equal stores. -/
lemma wf_of_signals_eq {w w' : World} (h : w'.signals = w.signals) (hw : WF w) :
    WF w' := by
  constructor
  · rw [h]; exact hw.pairwiseIds
  · rw [h]; exact hw.headMax
  · show activeCount w'.signals ≤ 1
    rw [h]; exact hw.atMostOne
  · rw [h]; exact hw.allOk

lemma nextSignalId_gt (w : World) (hw : WF w) :
    ∀ s ∈ w.signals, s.id < nextSignalId w := by
  intro s hs
  rcases hl : w.signals with _ | ⟨x, t⟩
  · rw [hl] at hs; cases hs
  · have h1 : s.id ≤ x.id := hw.headMax x (by simp [hl]) s hs
    have h2 : nextSignalId w = x.id + 1 := by
      unfold nextSignalId
      rw [hl]
      rfl
    omega

lemma wf_resolveSignal (cfg : Config) (w : World) (env : Env) (sig : Signal)
    (rd : Round) (hmax : cfg.maxGale = 2) (hw : WF w)
    (ha : getActiveSignal w = some sig) :
    WF (resolveSignal cfg w env sig rd).1 := by
  obtain ⟨hmem, hact⟩ := getActiveSignal_mem ha
  unfold resolveSignal
  rcases hm : rd.multiplier with _ | mult
  · exact hw
  rcases ht : sig.target with _ | tgt
  · exact hw
  dsimp only
  split_ifs with h1 h2 h3
  · exact wf_of_signals_eq (by simp) (wf_markWon w env sig rd hw (by simp [hm]))
  · exact wf_of_signals_eq (by simp) (wf_markWon w env sig rd hw (by simp [hm]))
  · exact wf_of_signals_eq (by simp)
      (wf_updateSignalGale w sig (sig.galeDepth + 1) hw hmem hact
        (by rw [hmax] at h3; omega))
  · exact wf_of_signals_eq (by simp) (wf_markLost w env sig rd hw (by simp [hm]))

lemma wf_createSignal (cfg : Config) (w : World) (env : Env) (tr : Int) (t : ℚ)
    (hw : WF w) (hnone : getActiveSignal w = none) :
    WF (createSignal cfg w env tr t).1 := by
  have hfresh := nextSignalId_gt w hw
  have hzero : activeCount w.signals = 0 :=
    activeCount_eq_zero_of_none (getActiveSignal_none hnone)
  set doc : Signal :=
    { id := nextSignalId w
      triggerRoundId := tr
      target := some t
      status := Status.active
      resultRoundId := none
      resultMultiplier := none
      galeDepth := 0
      createdAt := env.nowUtcSec
      resolvedAt := none
      telegramMessageId := none } with hdoc
  have hwf1 : WF { w with
      signals := doc :: w.signals,
      daily := { w.daily with
        signalsSent := w.daily.signalsSent + 1,
        todayWins := (max 0 (((w.daily.signalsSent + 1 : Nat) : Int)
          - (w.daily.todayLosses : Int))).toNat } } := by
    have hdid : doc.id = nextSignalId w := rfl
    constructor
    · rw [List.pairwise_cons]
      refine ⟨fun s hs => ?_, hw.pairwiseIds⟩
      have h1 := hfresh s hs
      omega
    · intro hd hhd s hs
      simp only [List.head?_cons, Option.mem_def, Option.some.injEq] at hhd
      subst hhd
      rcases List.mem_cons.mp hs with rfl | hs'
      · exact le_refl _
      · have h1 := hfresh s hs'
        omega
    · show activeCount (doc :: w.signals) ≤ 1
      rw [activeCount_cons, hzero, if_pos (by rw [hdoc]; rfl)]
    · intro s hs
      rcases List.mem_cons.mp hs with rfl | hs'
      · exact ⟨fun _ => rfl, by simp [hdoc], by simp [hdoc], by simp [hdoc],
          by simp [hdoc]⟩
      · exact hw.allOk s hs'
  unfold createSignal
  dsimp only
  rcases hmsg : env.sendMsgId with _ | m
  · exact wf_of_signals_eq (by simp) hwf1
  · apply wf_of_signals_eq (w := updateSignalDoc
      { w with
        signals := doc :: w.signals,
        daily := { w.daily with
          signalsSent := w.daily.signalsSent + 1,
          todayWins := (max 0 (((w.daily.signalsSent + 1 : Nat) : Int)
            - (w.daily.todayLosses : Int))).toNat } }
      (nextSignalId w)
      (fun s => { s with telegramMessageId := some m })) ?_ ?_
    · simp [updateSignalDoc, recordInterruptEvent]
    · apply wf_updateSignalDoc _ _ hwf1
      · intro s; rfl
      · rw [activeCount_map_eq (fun s _ => by by_cases h : s.id = nextSignalId w <;> simp [h])]
        exact hwf1.atMostOne
      · intro s hs _
        obtain ⟨o1, o2, o3, o4, o5⟩ := hwf1.allOk s hs
        exact ⟨o1, o2, o3, o4, o5⟩

lemma wf_onNewRound (cfg : Config) (w : World) (env : Env) (rd : Round)
    (hmax : cfg.maxGale = 2) (hw : WF w) :
    WF (onNewRound cfg w env rd).1 := by
  unfold onNewRound
  rcases ha : getActiveSignal w with _ | sig
  · dsimp only
    split_ifs <;>
      first
        | exact hw
        | exact wf_of_signals_eq (w := w) rfl hw
        | exact wf_createSignal cfg (clearPreSignalState w) env _ cfg.targetCashout
            (wf_of_signals_eq (w := w) rfl hw)
            (by rw [clearPreSignalState_getActiveSignal]; exact ha)
  · exact wf_resolveSignal cfg w env sig rd hmax hw ha

lemma wf_ingestPayout (cfg : Config) (w : World) (env : Env) (m : Option ℚ)
    (hmax : cfg.maxGale = 2) (hw : WF w) :
    WF (ingestPayout cfg w env m).1 := by
  unfold ingestPayout
  rcases m with _ | v
  · exact hw
  · exact wf_onNewRound cfg _ env _ hmax (wf_of_signals_eq (w := w) rfl hw)

/-- Every reachable world satisfies the signals-store invariant. -/
lemma wf_of_reachable (cfg : Config) (hmax : cfg.maxGale = 2) (w : World)
    (h : Reachable cfg w) : WF w := by
  induction h with
  | init =>
    constructor
    · exact List.Pairwise.nil
    · intro hd hhd
      simp [initialWorld] at hhd
    · show activeCount ([] : List Signal) ≤ 1
      simp [activeCount]
    · intro s hs
      simp [initialWorld] at hs
  | step env m _ ih => exact wf_ingestPayout cfg _ env m hmax ih

/-- Resolution rewrites signal documents in place: the stored id sequence
is unchanged. -/
lemma resolveSignal_map_id (cfg : Config) (w : World) (env : Env)
    (sig : Signal) (rd : Round) :
    (resolveSignal cfg w env sig rd).1.signals.map Signal.id
      = w.signals.map Signal.id := by
  unfold resolveSignal
  rcases rd.multiplier with _ | mult
  · rfl
  rcases sig.target with _ | tgt
  · rfl
  dsimp only
  split_ifs
  · rw [sendWinMessage_signals]
    exact updateSignalDoc_map_id w sig.id fun s => rfl
  · rw [sendRecoveryMessage_signals]
    exact updateSignalDoc_map_id w sig.id fun s => rfl
  · rw [sendGaleMessage_signals]
    exact updateSignalDoc_map_id w sig.id fun s => rfl
  · rw [startCooldown_signals, sendLossMessage_signals]
    exact updateSignalDoc_map_id w sig.id fun s => rfl

lemma onNewRound_signals_of_active (cfg : Config) (w : World) (env : Env)
    (rd : Round) (h : (getActiveSignal w).isSome) :
    (onNewRound cfg w env rd).1.signals.map Signal.id
      = w.signals.map Signal.id := by
  rcases ha : getActiveSignal w with _ | sig
  · rw [ha] at h; cases h
  · unfold onNewRound
    simp only [ha]
    exact resolveSignal_map_id cfg w env sig rd

/-- A growth of the signals store can only come from the trigger branch,
which runs with no active signal and the pre-signal flag set. -/
lemma onNewRound_new_signal (cfg : Config) (w : World) (env : Env) (rd : Round)
    (h : w.signals.length < (onNewRound cfg w env rd).1.signals.length) :
    getActiveSignal w = none ∧ preSignalSentForRun w = true := by
  rcases ha : getActiveSignal w with _ | sig
  · refine ⟨rfl, ?_⟩
    by_cases hflag : preSignalSentForRun w = true
    · exact hflag
    · exfalso
      rw [Bool.not_eq_true] at hflag
      unfold onNewRound at h
      simp only [ha, hflag] at h
      split_ifs at h <;> simp_all
  · exfalso
    have hmap := onNewRound_signals_of_active cfg w env rd (by rw [ha]; rfl)
    have hlen : (onNewRound cfg w env rd).1.signals.length = w.signals.length := by
      have h1 := congrArg List.length hmap
      simpa using h1
    omega

lemma createSignal_head (cfg : Config) (w : World) (env : Env)
    (tr : Int) (t : ℚ) :
    ∃ s, (createSignal cfg w env tr t).1.signals.head? = some s
      ∧ s.status = Status.active ∧ s.galeDepth = 0 ∧ s.resultRoundId = none
      ∧ s.resultMultiplier = none ∧ s.resolvedAt = none ∧ s.target = some t := by
  unfold createSignal
  dsimp only
  rcases hmsg : env.sendMsgId with _ | m <;> simp only [hmsg]
  · exact ⟨{ id := nextSignalId w, triggerRoundId := tr, target := some t,
             status := Status.active, resultRoundId := none,
             resultMultiplier := none, galeDepth := 0,
             createdAt := env.nowUtcSec, resolvedAt := none,
             telegramMessageId := none }, rfl, rfl, rfl, rfl, rfl, rfl, rfl⟩
  · apply Exists.intro ({ id := nextSignalId w, triggerRoundId := tr,
                          target := some t, status := Status.active,
                          resultRoundId := none, resultMultiplier := none,
                          galeDepth := 0, createdAt := env.nowUtcSec,
                          resolvedAt := none,
                          telegramMessageId := some m } : Signal)
    refine ⟨?_, rfl, rfl, rfl, rfl, rfl, rfl⟩
    simp [updateSignalDoc, recordInterruptEvent]

/-! Projection facts used when computing resolution outcomes. -/

@[simp] lemma updateSignalDoc_daily (w : World) (sid : Int) (f : Signal → Signal) :
    (updateSignalDoc w sid f).daily = w.daily := rfl

@[simp] lemma updateSignalDoc_state (w : World) (sid : Int) (f : Signal → Signal) :
    (updateSignalDoc w sid f).state = w.state := rfl

@[simp] lemma bumpStreak_daily (w : World) :
    (bumpStreak w).daily = w.daily := rfl

@[simp] lemma checkStreakCelebration_daily (w : World) :
    (checkStreakCelebration w).1.daily = w.daily := by
  unfold checkStreakCelebration
  split <;> rfl

@[simp] lemma sendWinMessage_daily (w : World) (sig : Signal) :
    (sendWinMessage w sig).1.daily = w.daily := by
  unfold sendWinMessage
  simp

@[simp] lemma sendRecoveryMessage_daily (w : World) (sig : Signal) :
    (sendRecoveryMessage w sig).1.daily = w.daily := by
  unfold sendRecoveryMessage
  simp

@[simp] lemma bumpStreak_cooldown (w : World) :
    (bumpStreak w).state.cooldownUntilRoundId = w.state.cooldownUntilRoundId := rfl

@[simp] lemma checkStreakCelebration_state (w : World) :
    (checkStreakCelebration w).1.state = w.state := by
  unfold checkStreakCelebration
  split <;> rfl

@[simp] lemma sendWinMessage_cooldown (w : World) (sig : Signal) :
    (sendWinMessage w sig).1.state.cooldownUntilRoundId
      = w.state.cooldownUntilRoundId := by
  unfold sendWinMessage
  simp [bumpStreak, persistConsecutiveWins]

@[simp] lemma sendRecoveryMessage_cooldown (w : World) (sig : Signal) :
    (sendRecoveryMessage w sig).1.state.cooldownUntilRoundId
      = w.state.cooldownUntilRoundId := by
  unfold sendRecoveryMessage
  simp [bumpStreak, persistConsecutiveWins]

@[simp] lemma sendLossMessage_daily_todayLosses (w : World) (sig : Signal) :
    (sendLossMessage w sig).1.daily.todayLosses = w.daily.todayLosses := by
  unfold sendLossMessage
  dsimp only
  split <;> rfl

@[simp] lemma sendLossMessage_currentStreak (w : World) (sig : Signal) :
    (sendLossMessage w sig).1.currentStreak = 0 := by
  unfold sendLossMessage
  dsimp only
  split <;> rfl

@[simp] lemma sendLossMessage_consecutiveWins (w : World) (sig : Signal) :
    (sendLossMessage w sig).1.state.consecutiveWins = 0 := by
  unfold sendLossMessage
  dsimp only
  split <;> rfl

@[simp] lemma sendLossMessage_events (w : World) (sig : Signal) :
    (sendLossMessage w sig).2
      = [Event.lossMsg sig.id w.daily.wins w.daily.losses] := rfl

@[simp] lemma startCooldown_currentStreak (w : World) (n : Int) (r : Option Int) :
    (startCooldown w n r).currentStreak = w.currentStreak := by
  unfold startCooldown
  cases r <;> rfl

@[simp] lemma startCooldown_daily (w : World) (n : Int) (r : Option Int) :
    (startCooldown w n r).daily = w.daily := by
  unfold startCooldown
  cases r <;> rfl

@[simp] lemma startCooldown_consecutiveWins (w : World) (n : Int) (r : Option Int) :
    (startCooldown w n r).state.consecutiveWins = w.state.consecutiveWins := by
  unfold startCooldown
  cases r <;> rfl

@[simp] lemma startCooldown_some (w : World) (n : Int) (rid : Int) :
    (startCooldown w n (some rid)).state.cooldownUntilRoundId
      = some (rid + n) := rfl

@[simp] lemma markWon_daily (w : World) (env : Env) (sig : Signal) (rd : Round) :
    (markWon w env sig rd).daily = w.daily := rfl

@[simp] lemma markLost_daily (w : World) (env : Env) (sig : Signal) (rd : Round) :
    (markLost w env sig rd).daily = w.daily := rfl

@[simp] lemma markLost_state (w : World) (env : Env) (sig : Signal) (rd : Round) :
    (markLost w env sig rd).state = w.state := rfl

@[simp] lemma updateSignalGale_daily (w : World) (sig : Signal) (d : Nat) :
    (updateSignalGale w sig d).daily = w.daily := rfl

@[simp] lemma updateSignalGale_state (w : World) (sig : Signal) (d : Nat) :
    (updateSignalGale w sig d).state = w.state := rfl

/-- Members of an id-filtered in-place update with the wanted id come
from a stored document with that id. -/
lemma mem_updateSignalDoc {w : World} {sid : Int} {f : Signal → Signal}
    {s : Signal} (hs : s ∈ (updateSignalDoc w sid f).signals) :
    (∃ s0 ∈ w.signals, s0.id = sid ∧ s = f s0) ∨ (s ∈ w.signals ∧ s.id ≠ sid) := by
  rcases List.mem_map.mp hs with ⟨s0, hs0, rfl⟩
  by_cases hc : s0.id = sid
  · exact Or.inl ⟨s0, hs0, hc, by simp [hc]⟩
  · right
    rw [if_neg hc]
    exact ⟨hs0, hc⟩

/-! ## Claim C1 -/

/-- Claim C1: in every reachable state of the serial `on_new_round`
loop, at most one signal is non-terminal; an invocation that starts with
an active signal rewrites documents in place and never inserts one, and
an invocation that inserts a signal started with no non-terminal signal
on file. -/
theorem at_most_one_nonterminal_signal (cfg : Config) (w : World)
    (hmax : cfg.maxGale = 2) (hr : Reachable cfg w) (env : Env) (rd : Round) :
    activeCount w.signals ≤ 1
    ∧ ((getActiveSignal w).isSome = true →
        (onNewRound cfg w env rd).1.signals.map Signal.id
          = w.signals.map Signal.id)
    ∧ (w.signals.length < (onNewRound cfg w env rd).1.signals.length →
        getActiveSignal w = none ∧ activeCount w.signals = 0) := by
  refine ⟨(wf_of_reachable cfg hmax w hr).atMostOne,
    onNewRound_signals_of_active cfg w env rd, ?_⟩
  intro h
  obtain ⟨h1, _⟩ := onNewRound_new_signal cfg w env rd h
  exact ⟨h1, activeCount_eq_zero_of_none (getActiveSignal_none h1)⟩

theorem at_most_one_nonterminal_signal_witness :
    activeCount initialWorld.signals ≤ 1
    ∧ ((getActiveSignal initialWorld).isSome = true →
        (onNewRound defaultConfig initialWorld (scenarioEnv 0)
            ⟨1, some 1⟩).1.signals.map Signal.id
          = initialWorld.signals.map Signal.id)
    ∧ (initialWorld.signals.length <
        (onNewRound defaultConfig initialWorld (scenarioEnv 0)
            ⟨1, some 1⟩).1.signals.length →
        getActiveSignal initialWorld = none
          ∧ activeCount initialWorld.signals = 0) :=
  at_most_one_nonterminal_signal defaultConfig initialWorld rfl
    Reachable.init (scenarioEnv 0) ⟨1, some 1⟩

/-! ## Claim C10 -/

/-- Claim C10: every stored signal keeps status and gale depth in
agreement and carries its result fields once terminal, and a freshly
created signal is active at depth 0 with null result fields. -/
theorem signal_documents_well_formed (cfg : Config) (w : World)
    (hmax : cfg.maxGale = 2) (hr : Reachable cfg w)
    (env : Env) (tr : Int) (t : ℚ) :
    (∀ s ∈ w.signals,
        (s.status = Status.active → s.galeDepth = 0)
        ∧ (s.status = Status.gale1 → s.galeDepth = 1)
        ∧ (s.status = Status.gale2 → s.galeDepth = 2)
        ∧ ((s.status = Status.won ∨ s.status = Status.lost) →
            s.resultRoundId.isSome ∧ s.resultMultiplier.isSome
              ∧ s.resolvedAt.isSome))
    ∧ (∃ s, (createSignal cfg w env tr t).1.signals.head? = some s
        ∧ s.status = Status.active ∧ s.galeDepth = 0
        ∧ s.resultRoundId = none ∧ s.resultMultiplier = none
        ∧ s.resolvedAt = none) := by
  constructor
  · intro s hs
    obtain ⟨o1, o2, o3, o4, _⟩ := (wf_of_reachable cfg hmax w hr).allOk s hs
    exact ⟨o1, o2, o3, o4⟩
  · obtain ⟨s, h1, h2, h3, h4, h5, h6, _⟩ := createSignal_head cfg w env tr t
    exact ⟨s, h1, h2, h3, h4, h5, h6⟩

theorem signal_documents_well_formed_witness :
    (∀ s ∈ initialWorld.signals,
        (s.status = Status.active → s.galeDepth = 0)
        ∧ (s.status = Status.gale1 → s.galeDepth = 1)
        ∧ (s.status = Status.gale2 → s.galeDepth = 2)
        ∧ ((s.status = Status.won ∨ s.status = Status.lost) →
            s.resultRoundId.isSome ∧ s.resultMultiplier.isSome
              ∧ s.resolvedAt.isSome))
    ∧ (∃ s, (createSignal defaultConfig initialWorld (scenarioEnv 0)
          1 q3_2).1.signals.head? = some s
        ∧ s.status = Status.active ∧ s.galeDepth = 0
        ∧ s.resultRoundId = none ∧ s.resultMultiplier = none
        ∧ s.resolvedAt = none) :=
  signal_documents_well_formed defaultConfig initialWorld rfl
    Reachable.init (scenarioEnv 0) 1 q3_2

/-! ## Claim C2 -/

/-- Claim C2: resolving a signal against a round marks it won at any
depth and bumps the daily win counter when the multiplier meets the
target; escalates depth and status with no cooldown and no daily change
when it misses below depth 2; and at depth 2 marks it lost, bumps the
loss counters (the loss notification reports the bumped value), resets
the streak and starts the 3-round cooldown. -/
theorem resolve_signal_transitions (w : World) (env : Env) (sig : Signal)
    (rd : Round) (t m : ℚ)
    (ht : sig.target = some t) (hm : rd.multiplier = some m) :
    (t ≤ m →
      (∀ s ∈ (resolveSignal defaultConfig w env sig rd).1.signals,
          s.id = sig.id → s.status = Status.won)
      ∧ (resolveSignal defaultConfig w env sig rd).1.daily.wins
          = w.daily.wins + 1)
    ∧ (m < t → sig.galeDepth < 2 →
      (∀ s ∈ (resolveSignal defaultConfig w env sig rd).1.signals,
          s.id = sig.id →
            s.status = (if sig.galeDepth = 0 then Status.gale1 else Status.gale2)
              ∧ s.galeDepth = sig.galeDepth + 1)
      ∧ (resolveSignal defaultConfig w env sig rd).1.daily = w.daily
      ∧ (resolveSignal defaultConfig w env sig rd).1.state.cooldownUntilRoundId
          = w.state.cooldownUntilRoundId)
    ∧ (m < t → sig.galeDepth = 2 →
      (∀ s ∈ (resolveSignal defaultConfig w env sig rd).1.signals,
          s.id = sig.id → s.status = Status.lost)
      ∧ (resolveSignal defaultConfig w env sig rd).2
          = [Event.lossMsg sig.id w.daily.wins (w.daily.losses + 1)]
      ∧ (resolveSignal defaultConfig w env sig rd).1.daily.todayLosses
          = w.daily.todayLosses + 1
      ∧ (resolveSignal defaultConfig w env sig rd).1.currentStreak = 0
      ∧ (resolveSignal defaultConfig w env sig rd).1.state.consecutiveWins = 0
      ∧ (resolveSignal defaultConfig w env sig rd).1.state.cooldownUntilRoundId
          = some (rd.id + 3)) := by
  unfold resolveSignal
  simp only [hm, ht]
  refine ⟨?_, ?_, ?_⟩
  · intro hle
    rw [if_pos hle]
    by_cases hd : sig.galeDepth = 0
    · rw [if_pos hd]
      constructor
      · intro s hs hid
        rw [sendWinMessage_signals] at hs
        rcases mem_updateSignalDoc hs with ⟨s0, _, _, rfl⟩ | ⟨_, hne⟩
        · rfl
        · exact absurd hid hne
      · simp [incrementDailyWins]
    · rw [if_neg hd]
      constructor
      · intro s hs hid
        rw [sendRecoveryMessage_signals] at hs
        rcases mem_updateSignalDoc hs with ⟨s0, _, _, rfl⟩ | ⟨_, hne⟩
        · rfl
        · exact absurd hid hne
      · simp [incrementDailyWins]
  · intro hlt hdep
    rw [if_neg (not_le.mpr hlt), if_pos (by
      show sig.galeDepth < defaultConfig.maxGale
      exact hdep)]
    refine ⟨?_, rfl, rfl⟩
    intro s hs hid
    rw [sendGaleMessage_signals] at hs
    rcases mem_updateSignalDoc hs with ⟨s0, _, _, rfl⟩ | ⟨_, hne⟩
    · refine ⟨?_, rfl⟩
      by_cases h0 : sig.galeDepth = 0
      · rw [h0]
        rfl
      · rw [if_neg h0]
        show (if sig.galeDepth + 1 = 1 then Status.gale1 else Status.gale2)
          = Status.gale2
        rw [if_neg (by omega)]
    · exact absurd hid hne
  · intro hlt hdep
    rw [if_neg (not_le.mpr hlt), if_neg (by
      show ¬sig.galeDepth < defaultConfig.maxGale
      rw [hdep]
      exact lt_irrefl 2)]
    refine ⟨?_, by simp [incrementDailyLosses], by simp [incrementDailyLosses],
      by simp, by simp, by simp [defaultConfig]⟩
    intro s hs hid
    rw [startCooldown_signals, sendLossMessage_signals] at hs
    rcases mem_updateSignalDoc hs with ⟨s0, _, _, rfl⟩ | ⟨_, hne⟩
    · rfl
    · exact absurd hid hne

theorem resolve_signal_transitions_witness :
    (q3_2 ≤ 1 →
      (∀ s ∈ (resolveSignal defaultConfig initialWorld (scenarioEnv 0)
          gale2Signal ⟨9, some 1⟩).1.signals,
          s.id = gale2Signal.id → s.status = Status.won)
      ∧ (resolveSignal defaultConfig initialWorld (scenarioEnv 0)
          gale2Signal ⟨9, some 1⟩).1.daily.wins
          = initialWorld.daily.wins + 1)
    ∧ ((1 : ℚ) < q3_2 → gale2Signal.galeDepth < 2 →
      (∀ s ∈ (resolveSignal defaultConfig initialWorld (scenarioEnv 0)
          gale2Signal ⟨9, some 1⟩).1.signals,
          s.id = gale2Signal.id →
            s.status
              = (if gale2Signal.galeDepth = 0 then Status.gale1 else Status.gale2)
              ∧ s.galeDepth = gale2Signal.galeDepth + 1)
      ∧ (resolveSignal defaultConfig initialWorld (scenarioEnv 0)
          gale2Signal ⟨9, some 1⟩).1.daily = initialWorld.daily
      ∧ (resolveSignal defaultConfig initialWorld (scenarioEnv 0)
          gale2Signal ⟨9, some 1⟩).1.state.cooldownUntilRoundId
          = initialWorld.state.cooldownUntilRoundId)
    ∧ ((1 : ℚ) < q3_2 → gale2Signal.galeDepth = 2 →
      (∀ s ∈ (resolveSignal defaultConfig initialWorld (scenarioEnv 0)
          gale2Signal ⟨9, some 1⟩).1.signals,
          s.id = gale2Signal.id → s.status = Status.lost)
      ∧ (resolveSignal defaultConfig initialWorld (scenarioEnv 0)
          gale2Signal ⟨9, some 1⟩).2
          = [Event.lossMsg gale2Signal.id initialWorld.daily.wins
              (initialWorld.daily.losses + 1)]
      ∧ (resolveSignal defaultConfig initialWorld (scenarioEnv 0)
          gale2Signal ⟨9, some 1⟩).1.daily.todayLosses
          = initialWorld.daily.todayLosses + 1
      ∧ (resolveSignal defaultConfig initialWorld (scenarioEnv 0)
          gale2Signal ⟨9, some 1⟩).1.currentStreak = 0
      ∧ (resolveSignal defaultConfig initialWorld (scenarioEnv 0)
          gale2Signal ⟨9, some 1⟩).1.state.consecutiveWins = 0
      ∧ (resolveSignal defaultConfig initialWorld (scenarioEnv 0)
          gale2Signal ⟨9, some 1⟩).1.state.cooldownUntilRoundId
          = some ((9 : Int) + 3)) :=
  resolve_signal_transitions initialWorld (scenarioEnv 0) gale2Signal
    ⟨9, some 1⟩ q3_2 1 rfl rfl

/-! ## Claim C3 -/

/-- Claim C3: a loss on round `lostId` records the bound `lostId + 3`,
and any later state carrying that bound is in cooldown exactly while the
newest stored round id is below `lostId + 3`. -/
theorem post_loss_cooldown_window (w w' : World) (lostId : Int) (r : Round)
    (hstate : w'.state.cooldownUntilRoundId
      = (startCooldown w defaultConfig.cooldownRounds
          (some lostId)).state.cooldownUntilRoundId)
    (hlatest : w'.rounds.head? = some r) :
    (startCooldown w defaultConfig.cooldownRounds
        (some lostId)).state.cooldownUntilRoundId = some (lostId + 3)
    ∧ (inCooldown w' = true ↔ r.id < lostId + 3) := by
  have h1 : (startCooldown w defaultConfig.cooldownRounds
      (some lostId)).state.cooldownUntilRoundId = some (lostId + 3) := rfl
  refine ⟨h1, ?_⟩
  unfold inCooldown
  rw [hstate, h1, hlatest]
  simp

theorem post_loss_cooldown_window_witness :
    (startCooldown initialWorld defaultConfig.cooldownRounds
        (some 5)).state.cooldownUntilRoundId = some (5 + 3)
    ∧ (inCooldown cooldownWorld = true ↔ (6 : Int) < 5 + 3) :=
  post_loss_cooldown_window initialWorld cooldownWorld 5 ⟨6, some 1⟩
    (by decide) rfl

/-! ## Claim C8 -/

/-- Claim C8: an unparseable multiplier drops the event before anything
is stored, and a resolution with a missing round multiplier or a missing
signal target returns with no state change and no notification. -/
theorem malformed_input_no_mutation (cfg : Config) (w : World) (env : Env)
    (sig : Signal) (rd : Round) :
    ingestPayout cfg w env none = (w, [])
    ∧ (rd.multiplier = none → resolveSignal cfg w env sig rd = (w, []))
    ∧ (sig.target = none → resolveSignal cfg w env sig rd = (w, [])) := by
  refine ⟨rfl, ?_, ?_⟩
  · intro h
    unfold resolveSignal
    rw [h]
  · intro h
    unfold resolveSignal
    rcases hm2 : rd.multiplier with _ | v
    · rfl
    · rw [h]

/-! ## Claim C4 (corrected) -/

/-- Claim C4 counterexample: with multipliers 2.5, 1.1, 1.3 stored
(two consecutive sub-threshold rounds), the pattern-monitoring query
reports nothing rather than `(count=2, remaining=1)`: the source returns
early whenever the consecutive count is below 3. -/
theorem pattern_monitoring_two_counterexample :
    getPatternMonitoringData defaultConfig twoUnderWorld (scenarioEnv 0) = none
    ∧ getPatternMonitoringData defaultConfig twoUnderWorld (scenarioEnv 0)
        ≠ some (2, 1) := by
  constructor <;> decide

/-- Claim C4 amended: after the 3rd consecutive sub-threshold round the
Trigger Detector reports true and the pattern-monitoring query reports
`(count=3, remaining=0)`; after only two consecutive sub-threshold
rounds the pattern-monitoring query reports no data. -/
theorem trigger_and_pattern_monitoring :
    checkTrigger defaultConfig threeUnderWorld (scenarioEnv 0)
        (getRecentRounds threeUnderWorld 8) = true
    ∧ getPatternMonitoringData defaultConfig threeUnderWorld (scenarioEnv 0)
        = some (3, 0)
    ∧ getPatternMonitoringData defaultConfig twoUnderWorld (scenarioEnv 0)
        = none := by
  refine ⟨by decide, by decide, by decide⟩

/-! ## Claim C5 (corrected) -/

/-- Claim C5 counterexample: on the run stored in
`pendingTriggerWorld` the trigger fires and a signal is created, yet the
state in which `create_signal` is invoked — and the state persisted
afterwards — has `pre_signal_sent = false`, because the handler clears
the per-run flag immediately before creating the signal. -/
theorem pre_signal_flag_at_creation_counterexample :
    (ingestPayout defaultConfig pendingTriggerWorld (scenarioEnv 0)
        (some q3_2)).1.signals.length
      = pendingTriggerWorld.signals.length + 1
    ∧ onNewRound defaultConfig pendingTriggerIngested (scenarioEnv 0)
        triggerRound
      = createSignal defaultConfig (clearPreSignalState pendingTriggerIngested)
          (scenarioEnv 0) 4 defaultConfig.targetCashout
    ∧ (clearPreSignalState pendingTriggerIngested).state.preSignalSent = false
    ∧ (ingestPayout defaultConfig pendingTriggerWorld (scenarioEnv 0)
        (some q3_2)).1.state.preSignalSent = false := by
  refine ⟨by decide, by decide, rfl, by decide⟩

/-- Claim C5 amended: a signal is created only if the persisted
pre-signal flag was true when the invocation began; the flag is cleared
as part of the creation itself. -/
theorem signal_creation_requires_pre_signal (cfg : Config) (w : World)
    (env : Env) (rd : Round)
    (h : w.signals.length < (onNewRound cfg w env rd).1.signals.length) :
    preSignalSentForRun w = true :=
  (onNewRound_new_signal cfg w env rd h).2

theorem signal_creation_requires_pre_signal_witness :
    preSignalSentForRun pendingTriggerIngested = true :=
  signal_creation_requires_pre_signal defaultConfig pendingTriggerIngested
    (scenarioEnv 0) triggerRound (by decide)

/-! ## Claim C6 -/

/-- Claim C6: a cancellation notice is posted only when the hour
bucket's cancellation count is under 5 and their share of
cancellations + confirmations does not exceed 30%; when governance
suppresses the notice, the stored pre-signal message is deleted instead
and no cancellation is emitted. -/
theorem cancellation_governance (w1 : World) (env1 : Env) (w : World)
    (env : Env) (rd : Round) (m : ℚ) (mid : Nat)
    (ha : getActiveSignal w = none)
    (hvol1 : checkVolatilityTrigger defaultConfig (getRecentRounds w 8) = false)
    (hvol2 : isInVolatilityCooldown w env = false)
    (hcd : inCooldown w = false)
    (hsess : isSessionClosed defaultConfig w env = false)
    (hflag : preSignalSentForRun w = true)
    (hm : rd.multiplier = some m)
    (hgt : defaultConfig.threshold < m)
    (hcons : consecutiveUnderThreshold defaultConfig (getRecentRounds w 8)
      < defaultConfig.sequenceLength)
    (hsup : shouldPostInterruptedSignal defaultConfig w env = false)
    (hmid : w.state.lastPreSignalMessageId = some mid) :
    (shouldPostInterruptedSignal defaultConfig w1 env1 = true →
      (getInterruptStats w1 env1).interrupts < 5
      ∧ ((getInterruptStats w1 env1).interrupts
            + (getInterruptStats w1 env1).confirmed ≠ 0 →
          ((getInterruptStats w1 env1).interrupts : ℚ)
            / (((getInterruptStats w1 env1).interrupts
                + (getInterruptStats w1 env1).confirmed : Nat) : ℚ)
            ≤ q3_10))
    ∧ (onNewRound defaultConfig w env rd).2 = [Event.deletedMessage mid]
    ∧ Event.signalCancelled ∉ (onNewRound defaultConfig w env rd).2 := by
  have key : onNewRound defaultConfig w env rd
      = (clearPreSignalState w, [Event.deletedMessage mid]) := by
    unfold onNewRound
    simp only [ha]
    rw [if_neg (by simp [hvol1])]
    rw [if_neg (by simp [hvol2])]
    rw [if_neg (by simp [hcd, hsess])]
    rw [if_pos (by
      refine ⟨hflag, ?_, hcons⟩
      rw [hm]
      exact hgt)]
    rw [if_neg (by simp [hsup])]
    rw [hmid]
  refine ⟨?_, by rw [key], by rw [key]; simp⟩
  intro hpost
  unfold shouldPostInterruptedSignal at hpost
  dsimp only at hpost
  split_ifs at hpost with h1 h2 h3
  · exact ⟨lt_of_not_le h1, fun htot => absurd h2 htot⟩
  · exact ⟨lt_of_not_le h1, fun _ => le_of_lt (lt_of_not_le h3)⟩

theorem cancellation_governance_witness :
    (shouldPostInterruptedSignal defaultConfig initialWorld (scenarioEnv 0) = true →
      (getInterruptStats initialWorld (scenarioEnv 0)).interrupts < 5
      ∧ ((getInterruptStats initialWorld (scenarioEnv 0)).interrupts
            + (getInterruptStats initialWorld (scenarioEnv 0)).confirmed ≠ 0 →
          ((getInterruptStats initialWorld (scenarioEnv 0)).interrupts : ℚ)
            / (((getInterruptStats initialWorld (scenarioEnv 0)).interrupts
                + (getInterruptStats initialWorld (scenarioEnv 0)).confirmed : Nat) : ℚ)
            ≤ q3_10))
    ∧ (onNewRound defaultConfig cappedHourWorld (scenarioEnv 0) breakingRound).2
        = [Event.deletedMessage 7]
    ∧ Event.signalCancelled
        ∉ (onNewRound defaultConfig cappedHourWorld (scenarioEnv 0) breakingRound).2 :=
  cancellation_governance initialWorld (scenarioEnv 0) cappedHourWorld
    (scenarioEnv 0) breakingRound q5_2 7 rfl (by decide) rfl rfl rfl rfl rfl
    (by decide) (by decide) (by decide) rfl

/-! ## Claim C7 -/

/-- Claim C7: with the operating-hours restriction enabled and no
explicit re-open on file, any wall clock between 23:00 and 08:00 BRT
closes the session and no new signal is created on an incoming round;
the daily open event writes the explicit re-open, which lifts the
closure at any wall-clock time. -/
theorem session_closed_suppression (cfg : Config) (w : World)
    (env env' : Env) (rd : Round)
    (hop : cfg.operatingHoursOnly = true)
    (hfl : w.state.sessionClosed ≠ some false)
    (htime : 23 * 60 ≤ env.minutesBRT ∨ env.minutesBRT < 8 * 60) :
    isSessionClosed cfg w env = true
    ∧ (onNewRound cfg w env rd).1.signals.length = w.signals.length
    ∧ (clearSessionClosed w).state.sessionClosed = some false
    ∧ isSessionClosed cfg (clearSessionClosed w) env' = false := by
  have hsc : isSessionClosed cfg w env = true := by
    unfold isSessionClosed
    rw [hop]
    rw [if_neg (by simp)]
    rw [if_neg hfl]
    rcases htime with h | h <;> simp [h]
  refine ⟨hsc, ?_, rfl, ?_⟩
  · rcases hac : getActiveSignal w with _ | sig
    · unfold onNewRound
      simp only [hac]
      split_ifs <;> simp_all
    · have hmap := onNewRound_signals_of_active cfg w env rd (by rw [hac]; rfl)
      have h1 := congrArg List.length hmap
      simpa using h1
  · unfold isSessionClosed
    rw [hop]
    simp [clearSessionClosed]

theorem session_closed_suppression_witness :
    isSessionClosed operatingHoursConfig initialWorld nightEnv = true
    ∧ (onNewRound operatingHoursConfig initialWorld nightEnv
        ⟨1, some 1⟩).1.signals.length = initialWorld.signals.length
    ∧ (clearSessionClosed initialWorld).state.sessionClosed = some false
    ∧ isSessionClosed operatingHoursConfig (clearSessionClosed initialWorld)
        (scenarioEnv 0) = false :=
  session_closed_suppression operatingHoursConfig initialWorld nightEnv
    (scenarioEnv 0) ⟨1, some 1⟩ rfl (by decide) (by decide)

/-! ## Claim C9 -/

/-- Claim C9: a celebration fires exactly when the streak is a milestone
above the last celebrated value, recording the value so the same
milestone never fires twice; the milestone set is 3, 5, 7, 10 and every
multiple of 5 from 15; and the concrete five-win run celebrates exactly
at 3 and at 5, never at 4 or 6. -/
theorem streak_milestone_celebrations (w : World) (n : Nat) :
    ((isStreakMilestone w.currentStreak = true
        ∧ w.lastStreakCelebration < w.currentStreak) →
      (checkStreakCelebration w).2 = [Event.streakCelebration w.currentStreak]
      ∧ (checkStreakCelebration w).1.lastStreakCelebration = w.currentStreak
      ∧ (checkStreakCelebration (checkStreakCelebration w).1).2 = [])
    ∧ (¬(isStreakMilestone w.currentStreak = true
        ∧ w.lastStreakCelebration < w.currentStreak) →
      (checkStreakCelebration w).2 = [])
    ∧ (isStreakMilestone n = true ↔
        (n = 3 ∨ n = 5 ∨ n = 7 ∨ n = 10 ∨ (15 ≤ n ∧ n % 5 = 0)))
    ∧ (runScenario fiveWinPayouts).2.filter
          (fun e => match e with
            | Event.streakCelebration _ => true
            | _ => false)
        = [Event.streakCelebration 3, Event.streakCelebration 5]
    ∧ Event.streakCelebration 4 ∉ (runScenario fiveWinPayouts).2
    ∧ Event.streakCelebration 6 ∉ (runScenario fiveWinPayouts).2 := by
  refine ⟨?_, ?_, ?_, by decide, by decide, by decide⟩
  · intro h
    have e1 : checkStreakCelebration w
        = ({ w with lastStreakCelebration := w.currentStreak },
           [Event.streakCelebration w.currentStreak]) := by
      unfold checkStreakCelebration
      rw [if_pos h]
    rw [e1]
    refine ⟨rfl, rfl, ?_⟩
    show (checkStreakCelebration
      { w with lastStreakCelebration := w.currentStreak }).2 = []
    unfold checkStreakCelebration
    rw [if_neg (fun hc => lt_irrefl _ hc.2)]
  · intro h
    unfold checkStreakCelebration
    rw [if_neg h]
  · unfold isStreakMilestone
    split_ifs with h1 h2 <;> simp <;> omega

end Zambabet
